import Mathlib

/-!
Verification of the decision engine of `scripts/generate_doc_pack.py`:
requirement normalization, the quality gate, combo scoring, complexity
classification, mode resolution, combo selection, and document planning.
Python machine integers are modelled as `Int`, Python strings as `String`,
and the JSON-shaped untyped input as an explicit `JValue` type.
-/

/-- Ordinal enum over low/medium/high (`LEVEL_MAP` keys in the source). -/
inductive Level where
  | low
  | medium
  | high
deriving DecidableEq, Repr

/-- `LEVEL_MAP = {"low": 0, "medium": 1, "high": 2}`. -/
def levelMap : Level → Int
  | Level.low => 0
  | Level.medium => 1
  | Level.high => 2

/-- Ordinal enum over slow/normal/fast (`SPEED_MAP` keys in the source). -/
inductive Speed where
  | slow
  | normal
  | fast
deriving DecidableEq, Repr

/-- `SPEED_MAP = {"slow": 0, "normal": 1, "fast": 2}`. -/
def speedMap : Speed → Int
  | Speed.slow => 0
  | Speed.normal => 1
  | Speed.fast => 2

/-- Enum over the `DESIGN_VALUES` set {"none", "wireframe", "figma"}. -/
inductive Design where
  | none
  | wireframe
  | figma
deriving DecidableEq, Repr

/-- Enum over the `MODE_VALUES` set {"minimal", "standard", "full", "single-file"}. -/
inductive Mode where
  | minimal
  | standard
  | full
  | singleFile
deriving DecidableEq, Repr

/-- Complexity tier strings "S" / "M" / "L" / "XL" returned by `complexity_level`. -/
inductive Tier where
  | S
  | M
  | L
  | XL
deriving DecidableEq, Repr

/-- Rank of a tier in the ordered scale S < M < L < XL. -/
def tierRank : Tier → Nat
  | Tier.S => 0
  | Tier.M => 1
  | Tier.L => 2
  | Tier.XL => 3

/-- The closed catalog of combo codes (`COMBO_VALUES` = {"c1", ..., "c6"}). -/
inductive ComboCode where
  | c1
  | c2
  | c3
  | c4
  | c5
  | c6
deriving DecidableEq, Repr

/-- The combo code as the Python string key. -/
def comboToString : ComboCode → String
  | ComboCode.c1 => "c1"
  | ComboCode.c2 => "c2"
  | ComboCode.c3 => "c3"
  | ComboCode.c4 => "c4"
  | ComboCode.c5 => "c5"
  | ComboCode.c6 => "c6"

/-- Membership test `s in COMBO_VALUES`, returning the matched code. -/
def comboOfString? (s : String) : Option ComboCode :=
  if s = "c1" then some ComboCode.c1
  else if s = "c2" then some ComboCode.c2
  else if s = "c3" then some ComboCode.c3
  else if s = "c4" then some ComboCode.c4
  else if s = "c5" then some ComboCode.c5
  else if s = "c6" then some ComboCode.c6
  else Option.none

/-- Membership test `s in MODE_VALUES`, returning the matched mode. -/
def modeOfString? (s : String) : Option Mode :=
  if s = "minimal" then some Mode.minimal
  else if s = "standard" then some Mode.standard
  else if s = "full" then some Mode.full
  else if s = "single-file" then some Mode.singleFile
  else Option.none

/-- Membership test `s in LEVEL_MAP`, returning the matched level. -/
def levelOfString? (s : String) : Option Level :=
  if s = "low" then some Level.low
  else if s = "medium" then some Level.medium
  else if s = "high" then some Level.high
  else Option.none

/-- Membership test `s in SPEED_MAP`, returning the matched speed. -/
def speedOfString? (s : String) : Option Speed :=
  if s = "slow" then some Speed.slow
  else if s = "normal" then some Speed.normal
  else if s = "fast" then some Speed.fast
  else Option.none

/-- Membership test `s in DESIGN_VALUES`, returning the matched value. -/
def designOfString? (s : String) : Option Design :=
  if s = "none" then some Design.none
  else if s = "wireframe" then some Design.wireframe
  else if s = "figma" then some Design.figma
  else Option.none

/-- A JSON-shaped Python value as seen by the normalizer; `null` doubles as
Python `None` (what `dict.get` yields for an absent key). -/
inductive JValue where
  | null
  | bool (b : Bool)
  | num (n : Int)
  | str (s : String)
deriving DecidableEq, Repr

/-- Python `str(value)` on the values `JValue` models. -/
def pyStr : JValue → String
  | JValue.null => "None"
  | JValue.bool true => "True"
  | JValue.bool false => "False"
  | JValue.num n => toString n
  | JValue.str s => s

/-- Python `str.strip()`: drop whitespace from both ends (implemented over
the character list so that it reduces inside the kernel). -/
def pyStrip (s : String) : String :=
  String.mk (((s.data.dropWhile Char.isWhitespace).reverse.dropWhile Char.isWhitespace).reverse)

/-- Python `str.lower()` on the ASCII letters the engine compares. -/
def pyLower (s : String) : String :=
  String.mk (s.data.map Char.toLower)

/-- Decimal digit run to a number; `Option.none` on a non-digit. -/
def parseDigitsAux : List Char → Nat → Option Nat
  | [], acc => some acc
  | c :: rest, acc =>
    if c.isDigit then parseDigitsAux rest (acc * 10 + (c.toNat - 48)) else Option.none

/-- Python `int(s)` on a string: optional sign and decimal digits, after
stripping surrounding whitespace; `Option.none` models a `ValueError`. -/
def parseIntText (s : String) : Option Int :=
  match (pyStrip s).data with
  | [] => Option.none
  | '-' :: rest =>
    match rest with
    | [] => Option.none
    | _ => (parseDigitsAux rest 0).map (fun n => -(n : Int))
  | '+' :: rest =>
    match rest with
    | [] => Option.none
    | _ => (parseDigitsAux rest 0).map (fun n => (n : Int))
  | cs => (parseDigitsAux cs 0).map (fun n => (n : Int))

/-- `to_int(value, default)`: `int(value)` with `TypeError`/`ValueError`
falling back to the default. Python `int(True) = 1`, `int(False) = 0`. -/
def to_int (value : JValue) (default : Int) : Int :=
  match value with
  | JValue.num n => n
  | JValue.bool b => if b then 1 else 0
  | JValue.str s =>
    match parseIntText s with
    | some n => n
    | Option.none => default
  | JValue.null => default

/-- `normalize_level(value, default)`. -/
def normalize_level (value : JValue) (default : Level) : Level :=
  match value with
  | JValue.null => default
  | v =>
    match levelOfString? (pyLower (pyStrip (pyStr v))) with
    | some l => l
    | Option.none => default

/-- `normalize_speed(value, default="normal")`. -/
def normalize_speed (value : JValue) (default : Speed) : Speed :=
  match value with
  | JValue.null => default
  | v =>
    match speedOfString? (pyLower (pyStrip (pyStr v))) with
    | some l => l
    | Option.none => default

/-- `normalize_design(value, default="none")`. -/
def normalize_design (value : JValue) (default : Design) : Design :=
  match value with
  | JValue.null => default
  | v =>
    match designOfString? (pyLower (pyStrip (pyStr v))) with
    | some l => l
    | Option.none => default

/-- `normalize_bool(value, default=False)`: a `bool` is returned as is, a
string is matched against fixed truthy/falsy token sets, anything else
falls back to the default. -/
def normalize_bool (value : JValue) (default : Bool) : Bool :=
  match value with
  | JValue.bool b => b
  | JValue.str s =>
    let lowered := pyLower (pyStrip s)
    if lowered = "true" ∨ lowered = "1" ∨ lowered = "yes" ∨ lowered = "y" then true
    else if lowered = "false" ∨ lowered = "0" ∨ lowered = "no" ∨ lowered = "n" then false
    else default
  | _ => default

/-- The canonical requirement record produced by `load_requirements`. -/
structure Requirement where
  project_name : String
  project_goal : String
  target_users : String
  team_size : Int
  module_count : Int
  ui_priority : Level
  backend_complexity : Level
  domain_complexity : Level
  compliance_level : Level
  design_source : Design
  frontend_backend_separation : Bool
  need_fast_validation : Bool
  iteration_speed : Speed
deriving DecidableEq, Repr

/-- `data.get(key)`: `JValue.null` models the `None` of an absent key. -/
def jsonGet (data : List (String × JValue)) (key : String) : JValue :=
  match data.find? (fun kv => kv.1 = key) with
  | some kv => kv.2
  | Option.none => JValue.null

/-- `str(data.get(key, default)).strip() or default` for the narrative
text fields of `load_requirements`. -/
def textField (data : List (String × JValue)) (key : String) (default : String) : String :=
  let v :=
    match data.find? (fun kv => kv.1 = key) with
    | some kv => kv.2
    | Option.none => JValue.str default
  let t := pyStrip (pyStr v)
  if t = "" then default else t

/-- `load_requirements` (the normalization step, with the JSON already
parsed into an association list). -/
def load_requirements (data : List (String × JValue)) : Requirement :=
  { project_name := textField data "project_name" "New Project"
    project_goal := textField data "project_goal" "待补充项目目标"
    target_users := textField data "target_users" "待补充目标用户"
    team_size := max (to_int (jsonGet data "team_size") 2) 1
    module_count := max (to_int (jsonGet data "module_count") 3) 1
    ui_priority := normalize_level (jsonGet data "ui_priority") Level.medium
    backend_complexity := normalize_level (jsonGet data "backend_complexity") Level.medium
    domain_complexity := normalize_level (jsonGet data "domain_complexity") Level.low
    compliance_level := normalize_level (jsonGet data "compliance_level") Level.low
    design_source := normalize_design (jsonGet data "design_source") Design.none
    frontend_backend_separation := normalize_bool (jsonGet data "frontend_backend_separation") false
    need_fast_validation := normalize_bool (jsonGet data "need_fast_validation") true
    iteration_speed := normalize_speed (jsonGet data "iteration_speed") Speed.normal }

/-- One character-list starts with another (used for substring search). -/
def leadsWith : List Char → List Char → Bool
  | [], _ => true
  | _ :: _, [] => false
  | a :: as, b :: bs => a = b && leadsWith as bs

/-- Whether `needle` occurs inside `haystack` (Python's `needle in haystack`). -/
def hasSubList (needle : List Char) : List Char → Bool
  | [] => needle.isEmpty
  | c :: rest => leadsWith needle (c :: rest) || hasSubList needle rest

/-- Python `needle in haystack` on strings. -/
def strHasSub (haystack needle : String) : Bool :=
  hasSubList needle.toList haystack.toList

/-- The `placeholder_hints` set of `find_requirement_quality_issues`. -/
def placeholderHints : List String :=
  ["待补充", "todo", "tbd", "to be determined", "new project", "example", "示例",
   "unknown", "未定"]

/-- The `required_fields` dict of `find_requirement_quality_issues`, in its
insertion order (key, label). -/
def requiredFields : List (String × String) :=
  [("project_name", "项目名称"), ("project_goal", "项目目标"), ("target_users", "目标用户")]

/-- `str(req.get(key, ""))` over a normalized Requirement. -/
def fieldValue (req : Requirement) (key : String) : String :=
  if key = "project_name" then req.project_name
  else if key = "project_goal" then req.project_goal
  else if key = "target_users" then req.target_users
  else ""

/-- The body of the per-field loop of `find_requirement_quality_issues`:
the issues one field contributes (the `continue` statements make it at
most one). -/
def checkRequiredField (key label raw0 : String) : List String :=
  if pyStrip raw0 = "" then [label ++ " 为空"]
  else if (pyStrip raw0).data.contains '<' ∨ (pyStrip raw0).data.contains '>' then
    [label ++ " 仍包含模板占位符"]
  else if placeholderHints.any (fun token => strHasSub (pyLower (pyStrip raw0)) token) then
    [label ++ " 仍是占位/示例文本：" ++ pyStrip raw0]
  else if key = "project_goal" ∧ (pyStrip raw0).length < 8 then
    ["项目目标过短，建议写清业务结果与验收口径"]
  else []

/-- `find_requirement_quality_issues`: the loop over `required_fields`
accumulating into one `issues` list. -/
def find_requirement_quality_issues (req : Requirement) : List String :=
  requiredFields.foldl
    (fun issues kv => issues ++ checkRequiredField kv.1 kv.2 (fieldValue req kv.1)) []

/-- Accumulated adjustments to `score["c1"]` after the baseline. -/
def delta_c1 (req : Requirement) : Int :=
  (if req.team_size ≤ 2 then 2 else 0)
  + (if req.module_count ≤ 3 then 2 else 0)
  + (if req.need_fast_validation then 2 else 0)
  + (if req.design_source = Design.none ∨ req.design_source = Design.wireframe then 1 else 0)
  + max 0 (1 - levelMap req.domain_complexity)
  - (if 1 ≤ levelMap req.compliance_level then 1 else 0)

/-- Accumulated adjustments to `score["c2"]` after the baseline. -/
def delta_c2 (req : Requirement) : Int :=
  (if 2 ≤ req.team_size ∧ req.team_size ≤ 5 then 2 else 0)
  + (if 3 ≤ req.module_count ∧ req.module_count ≤ 8 then 2 else 0)
  + (if 1 ≤ speedMap req.iteration_speed then 2 else 0)
  + (if 1 ≤ levelMap req.domain_complexity then 1 else 0)
  + (if req.need_fast_validation then 1 else 0)

/-- Accumulated adjustments to `score["c3"]` after the baseline. -/
def delta_c3 (req : Requirement) : Int :=
  (if req.frontend_backend_separation then 3 else 0)
  + (if 1 ≤ levelMap req.backend_complexity then 2 else 0)
  + (if 4 ≤ req.module_count then 2 else 0)
  + (if 1 ≤ levelMap req.compliance_level then 1 else 0)

/-- Accumulated adjustments to `score["c4"]` after the baseline. -/
def delta_c4 (req : Requirement) : Int :=
  (if req.design_source = Design.figma then 4 else 0)
  + (if levelMap req.ui_priority = 2 then 3 else 0)
  + (if req.need_fast_validation then 1 else 0)
  - (if levelMap req.domain_complexity = 2 then 1 else 0)

/-- Accumulated adjustments to `score["c5"]` after the baseline. -/
def delta_c5 (req : Requirement) : Int :=
  (if req.need_fast_validation then 3 else 0)
  + (if req.team_size ≤ 3 then 2 else 0)
  + (if speedMap req.iteration_speed = 2 then 2 else 0)
  + (if req.module_count ≤ 5 then 1 else 0)
  - (if levelMap req.domain_complexity = 2 then 1 else 0)

/-- Accumulated adjustments to `score["c6"]` after the baseline. -/
def delta_c6 (req : Requirement) : Int :=
  (if levelMap req.domain_complexity = 2 then 4 else 0)
  + (if 1 ≤ levelMap req.compliance_level then 2 else 0)
  + (if 5 ≤ req.team_size then 2 else 0)
  + (if 6 ≤ req.module_count then 2 else 0)
  - (if req.need_fast_validation then 1 else 0)

/-- The per-combo rule adjustments of `score_combos`. -/
def scoreDelta (req : Requirement) : ComboCode → Int
  | ComboCode.c1 => delta_c1 req
  | ComboCode.c2 => delta_c2 req
  | ComboCode.c3 => delta_c3 req
  | ComboCode.c4 => delta_c4 req
  | ComboCode.c5 => delta_c5 req
  | ComboCode.c6 => delta_c6 req

/-- `score_combos`: every combo starts at the baseline 2 (`score = {k: 2
for k in COMBO_VALUES}`) and accumulates its own rule deltas. -/
def score_combos (req : Requirement) (c : ComboCode) : Int :=
  2 + scoreDelta req c

/-- The six combo codes in their string (lexicographic) order. -/
def allCombos : List ComboCode :=
  [ComboCode.c1, ComboCode.c2, ComboCode.c3, ComboCode.c4, ComboCode.c5, ComboCode.c6]

/-- The score table as `(code key, score)` rows. -/
def scoreTable (req : Requirement) : List (String × Int) :=
  allCombos.map (fun c => (comboToString c, score_combos req c))

/-- `complexity_level`: banded team/module contributions plus ordinal and
boolean contributions, mapped through the fixed tier thresholds. -/
def complexity_level (req : Requirement) : Tier :=
  let domain := levelMap req.domain_complexity
  let compliance := levelMap req.compliance_level
  let backend := levelMap req.backend_complexity
  let separation : Int := if req.frontend_backend_separation then 1 else 0
  let score : Int :=
    (if req.team_size ≤ 2 then 0
     else if req.team_size ≤ 5 then 1
     else if req.team_size ≤ 8 then 2
     else 3)
    + (if req.module_count ≤ 3 then 0
       else if req.module_count ≤ 6 then 1
       else if req.module_count ≤ 10 then 2
       else 3)
    + domain + compliance + backend + separation
  if score ≤ 4 then Tier.S
  else if score ≤ 7 then Tier.M
  else if score ≤ 10 then Tier.L
  else Tier.XL

/-- `recommend_mode(req, complexity, forced_mode)`. -/
def recommend_mode (req : Requirement) (complexity : Tier) (forced_mode : String) : Mode :=
  match modeOfString? forced_mode with
  | some m => m
  | Option.none =>
    if complexity = Tier.S ∧ req.need_fast_validation then Mode.minimal
    else if complexity = Tier.XL ∨ levelMap req.compliance_level = 2 then Mode.full
    else Mode.standard

/-- Lexicographic (code-point) strict comparison of character lists,
Python's string `<`. -/
def charListLt : List Char → List Char → Bool
  | [], [] => false
  | [], _ :: _ => true
  | _ :: _, [] => false
  | a :: as, b :: bs => if a < b then true else if b < a then false else charListLt as bs

/-- Python's string `<`. -/
def strLtB (a b : String) : Bool :=
  charListLt a.data b.data

/-- Python's string `≤` (no more than): the negation of the reverse `<`. -/
def strLeB (a b : String) : Bool :=
  !(strLtB b a)

/-- The Python sort key `(-score, code)` as an order on table rows:
`a` sorts no later than `b`. -/
def comboKeyLe (a b : ComboCode × Int) : Prop :=
  b.2 < a.2 ∨ (a.2 = b.2 ∧ strLeB (comboToString a.1) (comboToString b.1) = true)

instance instDecComboKeyLe : DecidableRel comboKeyLe := fun a b =>
  inferInstanceAs
    (Decidable (b.2 < a.2 ∨ (a.2 = b.2 ∧ strLeB (comboToString a.1) (comboToString b.1) = true)))

lemma strLeB_code_refl (x : ComboCode) :
    strLeB (comboToString x) (comboToString x) = true := by
  cases x <;> decide

lemma strLeB_code_total (x y : ComboCode) :
    strLeB (comboToString x) (comboToString y) = true
      ∨ strLeB (comboToString y) (comboToString x) = true := by
  cases x <;> cases y <;> decide

lemma strLeB_code_trans (x y z : ComboCode) :
    strLeB (comboToString x) (comboToString y) = true →
    strLeB (comboToString y) (comboToString z) = true →
    strLeB (comboToString x) (comboToString z) = true := by
  cases x <;> cases y <;> cases z <;> decide

instance : IsTotal (ComboCode × Int) comboKeyLe := by
  constructor
  intro a b
  rcases lt_trichotomy a.2 b.2 with h | h | h
  · exact Or.inr (Or.inl h)
  · rcases strLeB_code_total a.1 b.1 with hs | hs
    · exact Or.inl (Or.inr ⟨h, hs⟩)
    · exact Or.inr (Or.inr ⟨h.symm, hs⟩)
  · exact Or.inl (Or.inl h)

instance : IsTrans (ComboCode × Int) comboKeyLe := by
  constructor
  intro a b c hab hbc
  rcases hab with h1 | ⟨h1, h1s⟩ <;> rcases hbc with h2 | ⟨h2, h2s⟩
  · exact Or.inl (h2.trans h1)
  · exact Or.inl (h2 ▸ h1)
  · exact Or.inl (by rw [h1]; exact h2)
  · exact Or.inr ⟨h1.trans h2, strLeB_code_trans a.1 b.1 c.1 h1s h2s⟩

/-- `sorted(scores.items(), key=lambda item: (-item[1], item[0]))`. -/
def orderedCombos (scores : ComboCode → Int) : List (ComboCode × Int) :=
  List.insertionSort comboKeyLe (allCombos.map (fun c => (c, scores c)))

/-- `select_combo(scores, forced_combo)`. The empty-list fallbacks are
unreachable because the table always has six rows. -/
def select_combo (scores : ComboCode → Int) (forced_combo : String) :
    ComboCode × Option ComboCode :=
  let ordered := orderedCombos scores
  match comboOfString? forced_combo with
  | some f =>
    match ordered with
    | a :: rest =>
      if a.1 ≠ f then (f, some a.1)
      else
        match rest with
        | b :: _ => (f, some b.1)
        | [] => (f, Option.none)
    | [] => (f, Option.none)
  | Option.none =>
    match ordered with
    | a :: b :: _ => (a.1, if a.2 - b.2 ≤ 2 then some b.1 else Option.none)
    | [a] => (a.1, Option.none)
    | [] => (ComboCode.c1, Option.none)

/-- `BASELINE_DOCS`. -/
def BASELINE_DOCS : List (String × String) :=
  [("00-epic-map.md", "Epic Map"),
   ("01-feature-story-map.md", "Feature Story Map"),
   ("02-core-spec.md", "Core Spec")]

/-- `BASE_DOCS`. -/
def BASE_DOCS : List (String × String) :=
  [("03-combo-decision.md", "组合决策记录"),
   ("04-milestone-plan.md", "里程碑计划"),
   ("05-ai-prompt-pack.md", "AI 执行 Prompt 包")]

/-- `COMBO_MIN_DOCS`. -/
def COMBO_MIN_DOCS : ComboCode → List (String × String)
  | ComboCode.c1 =>
    [("30-requirement-canvas.md", "需求画布"), ("31-prototype-brief.md", "原型说明")]
  | ComboCode.c2 =>
    [("30-iteration-slice.md", "迭代切片计划"), ("31-iteration-backlog.md", "迭代任务清单")]
  | ComboCode.c3 =>
    [("30-scenario-list.md", "场景清单"), ("31-api-contract-priority.md", "接口契约优先级"),
     ("32-data-model.md", "数据模型")]
  | ComboCode.c4 =>
    [("30-ui-flow-map.md", "UI 流程与设计约束"), ("31-figma-to-prompt-map.md", "Figma 到 Prompt 映射")]
  | ComboCode.c5 =>
    [("30-mvp-hypothesis.md", "MVP 假设"), ("31-feedback-loop.md", "反馈闭环")]
  | ComboCode.c6 =>
    [("30-domain-map.md", "领域拆分"), ("31-ubiquitous-language.md", "统一语言"),
     ("32-service-boundary.md", "应用服务边界")]

/-- `STANDARD_DOCS`. -/
def STANDARD_DOCS : List (String × String) :=
  [("10-prd-lite.md", "PRD Lite"),
   ("11-architecture-lite.md", "Architecture Lite"),
   ("12-api-spec.md", "API Spec"),
   ("13-database-design.md", "Database Design"),
   ("14-risk-checklist.md", "风险与回归清单")]

/-- `FULL_DOCS`. -/
def FULL_DOCS : List (String × String) :=
  [("20-module-spec-index.md", "模块 Spec 索引"),
   ("21-test-regression-plan.md", "测试与回归计划"),
   ("22-ops-runbook.md", "运维 Runbook"),
   ("23-change-log-governance.md", "变更治理")]

/-- `SINGLE_FILE_DOC`. -/
def SINGLE_FILE_DOC : String × String :=
  ("00-single-file-pack.md", "单文件项目文档包")

/-- `planned_docs(primary_combo, mode)`. -/
def planned_docs (primary_combo : ComboCode) (mode : Mode) : List (String × String) :=
  if mode = Mode.singleFile then [SINGLE_FILE_DOC]
  else
    BASELINE_DOCS ++ BASE_DOCS ++ COMBO_MIN_DOCS primary_combo
      ++ (if mode = Mode.standard ∨ mode = Mode.full then STANDARD_DOCS else [])
      ++ (if mode = Mode.full then FULL_DOCS else [])

/-- Spec wording of the Mode Resolver (section 4.5): forced mode first,
then tier-S fast validation, then XL-or-highest-compliance, else standard. -/
def recommendModeFromSpec (req : Requirement) (tier : Tier) (forced_mode : String) : Mode :=
  match modeOfString? forced_mode with
  | some m => m
  | Option.none =>
    if tier = Tier.S ∧ req.need_fast_validation = true then Mode.minimal
    else if tier = Tier.XL ∨ req.compliance_level = Level.high then Mode.full
    else Mode.standard

/-- Spec wording of the team-size band: 0 for ≤2, 1 for ≤5, 2 for ≤8, 3 otherwise. -/
def teamBandFromSpec (n : Int) : Int :=
  if n ≤ 2 then 0 else if n ≤ 5 then 1 else if n ≤ 8 then 2 else 3

/-- Spec wording of the module-count band: 0 for ≤3, 1 for ≤6, 2 for ≤10, 3 otherwise. -/
def moduleBandFromSpec (n : Int) : Int :=
  if n ≤ 3 then 0 else if n ≤ 6 then 1 else if n ≤ 10 then 2 else 3

/-- Spec wording of the tier thresholds: ≤4 → S, ≤7 → M, ≤10 → L, else XL. -/
def tierFromSpec (total : Int) : Tier :=
  if total ≤ 4 then Tier.S
  else if total ≤ 7 then Tier.M
  else if total ≤ 10 then Tier.L
  else Tier.XL

/-- Spec wording of the Complexity Classifier total: banded team and module
contributions plus the three ordinals plus 1 for separation. -/
def complexityTotalFromSpec (req : Requirement) : Int :=
  teamBandFromSpec req.team_size + moduleBandFromSpec req.module_count
    + levelMap req.domain_complexity + levelMap req.compliance_level
    + levelMap req.backend_complexity
    + (if req.frontend_backend_separation then 1 else 0)

/-- Spec wording of the Complexity Classifier (section 4.4). -/
def complexityFromSpec (req : Requirement) : Tier :=
  tierFromSpec (complexityTotalFromSpec req)

/-- Spec wording of the Document Planner (section 4.7): one fixed document
for single-file mode, otherwise baseline, base, combo minimum, then the
tier-gated layers. -/
def plannedDocsFromSpec (primary : ComboCode) (mode : Mode) : List (String × String) :=
  if mode = Mode.singleFile then [SINGLE_FILE_DOC]
  else
    BASELINE_DOCS ++ BASE_DOCS ++ COMBO_MIN_DOCS primary
      ++ (if mode = Mode.standard ∨ mode = Mode.full then STANDARD_DOCS else [])
      ++ (if mode = Mode.full then FULL_DOCS else [])

/-- Spec wording of one Quality Gate field check (section 4.2): the first
matching check wins, the fourth applies to `project_goal` only. -/
def fieldIssueFromSpec (key label value : String) : Option String :=
  if pyStrip value = "" then some (label ++ " 为空")
  else if (pyStrip value).data.contains '<' ∨ (pyStrip value).data.contains '>' then
    some (label ++ " 仍包含模板占位符")
  else if placeholderHints.any (fun token => strHasSub (pyLower (pyStrip value)) token) then
    some (label ++ " 仍是占位/示例文本：" ++ pyStrip value)
  else if key = "project_goal" ∧ (pyStrip value).length < 8 then
    some "项目目标过短，建议写清业务结果与验收口径"
  else Option.none

/-- Spec wording of "the field offends the Quality Gate": empty after
trimming, or angle brackets, or a placeholder hint, or (goal only) too short. -/
def offendsFromSpec (key value : String) : Prop :=
  pyStrip value = ""
    ∨ ((pyStrip value).data.contains '<' = true ∨ (pyStrip value).data.contains '>' = true)
    ∨ (placeholderHints.any (fun token => strHasSub (pyLower (pyStrip value)) token) = true)
    ∨ (key = "project_goal" ∧ (pyStrip value).length < 8)

instance (key value : String) : Decidable (offendsFromSpec key value) := by
  unfold offendsFromSpec
  infer_instance

lemma comboOfString_comboToString (f : ComboCode) :
    comboOfString? (comboToString f) = some f := by
  cases f <;> rfl

lemma comboKeyLe_refl (a : ComboCode × Int) : comboKeyLe a a :=
  Or.inr ⟨rfl, strLeB_code_refl a.1⟩

lemma orderedCombos_perm (scores : ComboCode → Int) :
    List.Perm (orderedCombos scores) (allCombos.map (fun c => (c, scores c))) :=
  List.perm_insertionSort comboKeyLe _

lemma orderedCombos_length (scores : ComboCode → Int) :
    (orderedCombos scores).length = 6 := by
  rw [(orderedCombos_perm scores).length_eq]
  rfl

lemma orderedCombos_sorted (scores : ComboCode → Int) :
    List.Sorted comboKeyLe (orderedCombos scores) :=
  List.sorted_insertionSort comboKeyLe _

lemma mem_orderedCombos (scores : ComboCode → Int) (c : ComboCode) :
    (c, scores c) ∈ orderedCombos scores := by
  rw [(orderedCombos_perm scores).mem_iff]
  apply List.mem_map_of_mem
  cases c <;> simp [allCombos]

lemma orderedCombos_shape (scores : ComboCode → Int) :
    ∃ a b l, orderedCombos scores = a :: b :: l := by
  have h := orderedCombos_length scores
  match hm : orderedCombos scores with
  | a :: b :: l => exact ⟨a, b, l, rfl⟩
  | [] => rw [hm] at h; simp at h
  | [a] => rw [hm] at h; simp at h

lemma orderedCombos_head_eval (scores : ComboCode → Int) (a : ComboCode × Int)
    (rest : List (ComboCode × Int)) (h : orderedCombos scores = a :: rest) :
    a.2 = scores a.1 := by
  have ha : a ∈ orderedCombos scores := by rw [h]; exact List.mem_cons_self a rest
  rw [(orderedCombos_perm scores).mem_iff] at ha
  obtain ⟨c, _, hc⟩ := List.mem_map.mp ha
  rw [← hc]

lemma orderedCombos_head_min (scores : ComboCode → Int) (a : ComboCode × Int)
    (rest : List (ComboCode × Int)) (h : orderedCombos scores = a :: rest)
    (e : ComboCode) : comboKeyLe a (e, scores e) := by
  have he : (e, scores e) ∈ orderedCombos scores := mem_orderedCombos scores e
  rw [h] at he
  rcases List.mem_cons.mp he with heq | htail
  · rw [heq]; exact comboKeyLe_refl _
  · have hs := orderedCombos_sorted scores
    rw [h] at hs
    exact List.rel_of_sorted_cons hs _ htail

lemma orderedCombos_head_top (scores : ComboCode → Int) (a : ComboCode × Int)
    (rest : List (ComboCode × Int)) (h : orderedCombos scores = a :: rest)
    (e : ComboCode) : scores e ≤ scores a.1 := by
  have hle := orderedCombos_head_min scores a rest h e
  have ha2 := orderedCombos_head_eval scores a rest h
  rcases hle with hlt | ⟨heq, _⟩
  · simp only at hlt; omega
  · simp only at heq; omega

lemma tierFromSpec_mono (a b : Int) (h : a ≤ b) :
    tierRank (tierFromSpec a) ≤ tierRank (tierFromSpec b) := by
  unfold tierFromSpec
  split_ifs <;> simp [tierRank] <;> omega

lemma complexity_level_eq_spec (req : Requirement) :
    complexity_level req = complexityFromSpec req := by
  unfold complexity_level complexityFromSpec complexityTotalFromSpec tierFromSpec
    teamBandFromSpec moduleBandFromSpec
  rfl

/-- Claim C5: for every Requirement the Complexity Classifier computes the
banded team/module contributions plus the three ordinals plus the
separation bit and maps the total through the inclusive thresholds
≤4 → S, ≤7 → M, ≤10 → L, else XL. -/
theorem claim_C5 (req : Requirement) : complexity_level req = complexityFromSpec req :=
  complexity_level_eq_spec req

/-- Claim C6: raising compliance_level from low to high with all other
fields fixed never lowers the complexity tier in the S < M < L < XL order. -/
theorem claim_C6 (req : Requirement) :
    tierRank (complexity_level { req with compliance_level := Level.low })
      ≤ tierRank (complexity_level { req with compliance_level := Level.high }) := by
  rw [complexity_level_eq_spec, complexity_level_eq_spec]
  unfold complexityFromSpec
  apply tierFromSpec_mono
  unfold complexityTotalFromSpec
  simp only [levelMap]
  omega

/-- Claim C3: the Mode Resolver returns a valid forced mode unconditionally,
otherwise `minimal` for tier S with fast validation, otherwise `full` for
tier XL or high compliance, otherwise `standard`, in that priority order;
in particular XL plus need_fast_validation yields `full`. -/
theorem claim_C3 :
    (∀ (req : Requirement) (tier : Tier) (forced : String),
      recommend_mode req tier forced = recommendModeFromSpec req tier forced)
    ∧ (∀ req : Requirement,
      recommend_mode { req with need_fast_validation := true } Tier.XL "auto" = Mode.full) := by
  constructor
  · intro req tier forced
    unfold recommend_mode recommendModeFromSpec
    cases modeOfString? forced
    · cases req.compliance_level <;> simp [levelMap]
    · rfl
  · intro req
    simp [recommend_mode, modeOfString?]

/-- Claim C9: the Document Planner yields exactly one fixed document in
single-file mode, and otherwise the baseline docs, then the base docs,
then the 2–3 combo minimum docs, then the standard-tier docs iff the mode
is standard or full, then the full-tier docs iff the mode is full. -/
theorem claim_C9 (c : ComboCode) (m : Mode) :
    planned_docs c m = plannedDocsFromSpec c m
    ∧ (planned_docs c Mode.singleFile).length = 1
    ∧ BASELINE_DOCS.length = 3 ∧ BASE_DOCS.length = 3
    ∧ 2 ≤ (COMBO_MIN_DOCS c).length ∧ (COMBO_MIN_DOCS c).length ≤ 3 := by
  cases c <;> cases m <;> exact ⟨rfl, rfl, rfl, rfl, by decide, by decide⟩

/-- Claim C7: the Combo Scorer's table has exactly the six combo codes as
keys, each score is the common baseline 2 plus that combo's own rule
deltas, and every resulting score is ≥ 0. -/
theorem claim_C7 (req : Requirement) :
    (scoreTable req).map Prod.fst = ["c1", "c2", "c3", "c4", "c5", "c6"]
    ∧ (∀ c, score_combos req c = 2 + scoreDelta req c)
    ∧ (∀ c, 0 ≤ score_combos req c) := by
  refine ⟨rfl, fun c => rfl, fun c => ?_⟩
  cases c <;>
    simp only [score_combos, scoreDelta, delta_c1, delta_c2, delta_c3, delta_c4,
      delta_c5, delta_c6] <;>
    split_ifs <;> omega

/-- The raw input of claim C10: JSON numbers where booleans are expected. -/
def rawBoolNums : List (String × JValue) :=
  [("frontend_backend_separation", JValue.num 1), ("need_fast_validation", JValue.num 0)]

/-- Claim C10: `normalize_bool` sends any value that is neither a bool nor
a string — JSON numbers 1 and 0 in particular — to the documented default
(False for frontend_backend_separation, True for need_fast_validation),
and only bools and strings can move these fields off their defaults. -/
theorem claim_C10 :
    (∀ (v : JValue) (d : Bool),
      (∀ b, v ≠ JValue.bool b) → (∀ s, v ≠ JValue.str s) → normalize_bool v d = d)
    ∧ (load_requirements rawBoolNums).frontend_backend_separation = false
    ∧ (load_requirements rawBoolNums).need_fast_validation = true
    ∧ (∀ (v : JValue) (d : Bool), normalize_bool v d ≠ d →
        (∃ b, v = JValue.bool b) ∨ (∃ s, v = JValue.str s)) := by
  refine ⟨?_, rfl, rfl, ?_⟩
  · intro v d hb hs
    cases v with
    | null => rfl
    | num n => rfl
    | bool b => exact absurd rfl (hb b)
    | str s => exact absurd rfl (hs s)
  · intro v d h
    cases v with
    | null => exact absurd rfl h
    | num n => exact absurd rfl h
    | bool b => exact Or.inl ⟨b, rfl⟩
    | str s => exact Or.inr ⟨s, rfl⟩

/-- Witness for claim C10 at the concrete non-bool non-string input 7. -/
theorem claim_C10_witness : normalize_bool (JValue.num 7) true = true :=
  claim_C10.1 (JValue.num 7) true (fun _ h => JValue.noConfusion h)
    (fun _ h => JValue.noConfusion h)

/-- Claim C2: a valid forced combo code is always the primary regardless of
its score, and the secondary is the top-ranked code of the sorted order
when it differs from the forced code, else the second-ranked code. -/
theorem claim_C2 (scores : ComboCode → Int) (f : ComboCode) :
    (select_combo scores (comboToString f)).1 = f
    ∧ ∃ a b l, orderedCombos scores = a :: b :: l
        ∧ (select_combo scores (comboToString f)).2
          = some (if a.1 = f then b.1 else a.1) := by
  obtain ⟨a, b, l, hshape⟩ := orderedCombos_shape scores
  have hsel : select_combo scores (comboToString f)
      = if a.1 ≠ f then (f, some a.1) else (f, some b.1) := by
    by_cases hf : a.1 = f
    · simp [select_combo, comboOfString_comboToString, hshape, hf]
    · simp [select_combo, comboOfString_comboToString, hshape, hf]
  by_cases hf : a.1 = f
  · refine ⟨?_, a, b, l, hshape, ?_⟩ <;> simp [hsel, hf]
  · refine ⟨?_, a, b, l, hshape, ?_⟩ <;> simp [hsel, hf]

/-- Claim C4: with no forced combo, when several combos share the top
score, the primary is top-scoring and lexicographically least among the
top-scoring codes. -/
theorem claim_C4 (scores : ComboCode → Int) (c d : ComboCode)
    (hcd : c ≠ d) (hmax : ∀ e, scores e ≤ scores c) (hd : scores d = scores c) :
    scores (select_combo scores "auto").1 = scores c
    ∧ ∀ e, scores e = scores c →
        strLeB (comboToString (select_combo scores "auto").1) (comboToString e) = true := by
  obtain ⟨a, b, l, hshape⟩ := orderedCombos_shape scores
  have hnone : comboOfString? "auto" = Option.none := rfl
  have hsel : (select_combo scores "auto").1 = a.1 := by
    simp [select_combo, hnone, hshape]
  have ha2 : a.2 = scores a.1 := orderedCombos_head_eval scores a (b :: l) hshape
  have htop : scores a.1 = scores c :=
    le_antisymm (hmax a.1) (orderedCombos_head_top scores a (b :: l) hshape c)
  constructor
  · rw [hsel]; exact htop
  · intro e he
    rw [hsel]
    have hle := orderedCombos_head_min scores a (b :: l) hshape e
    rcases hle with hlt | ⟨_, hstr⟩
    · exfalso
      simp only at hlt
      omega
    · exact hstr

/-- A fully tied score table used to witness claim C4. -/
def tiedScores : ComboCode → Int := fun _ => 5

/-- Witness for claim C4: with all six combos tied, the chosen primary is
top-scoring; the tie hypotheses are discharged at c1 and c2. -/
theorem claim_C4_witness :
    tiedScores (select_combo tiedScores "auto").1 = tiedScores ComboCode.c1 :=
  (claim_C4 tiedScores ComboCode.c1 ComboCode.c2 (by decide)
    (fun e => le_refl 5) rfl).1

lemma fieldValue_project_name (req : Requirement) :
    fieldValue req "project_name" = req.project_name := rfl

lemma fieldValue_project_goal (req : Requirement) :
    fieldValue req "project_goal" = req.project_goal := rfl

lemma fieldValue_target_users (req : Requirement) :
    fieldValue req "target_users" = req.target_users := rfl

lemma find_issues_concat (req : Requirement) :
    find_requirement_quality_issues req
      = checkRequiredField "project_name" "项目名称" req.project_name
        ++ checkRequiredField "project_goal" "项目目标" req.project_goal
        ++ checkRequiredField "target_users" "目标用户" req.target_users := by
  simp only [find_requirement_quality_issues, requiredFields, List.foldl_cons,
    List.foldl_nil, fieldValue_project_name, fieldValue_project_goal,
    fieldValue_target_users, List.nil_append, List.append_assoc]

/-- Claim C8: the Quality Gate checks the three required fields
independently, per field in the fixed order empty → angle brackets →
placeholder hints → (goal only) too short with the first match winning, so
it reports at most one issue per field and one for every offending field. -/
theorem claim_C8 (req : Requirement) :
    find_requirement_quality_issues req
      = checkRequiredField "project_name" "项目名称" req.project_name
        ++ checkRequiredField "project_goal" "项目目标" req.project_goal
        ++ checkRequiredField "target_users" "目标用户" req.target_users
    ∧ (∀ key label value, (checkRequiredField key label value).length ≤ 1)
    ∧ (∀ key label value,
        checkRequiredField key label value = (fieldIssueFromSpec key label value).toList)
    ∧ (∀ key label value, checkRequiredField key label value ≠ [] ↔ offendsFromSpec key value) := by
  refine ⟨find_issues_concat req, ?_, ?_, ?_⟩
  · intro key label value
    unfold checkRequiredField
    split_ifs <;> simp
  · intro key label value
    unfold checkRequiredField fieldIssueFromSpec
    split_ifs <;> rfl
  · intro key label value
    unfold checkRequiredField offendsFromSpec
    split_ifs with h1 h2 h3 h4 <;> simp_all

/-- A concrete requirement whose only gate issue is a placeholder goal. -/
def placeholderGoalReq : Requirement :=
  { project_name := "Shop", project_goal := "todo", target_users := "Engineers",
    team_size := 2, module_count := 2, ui_priority := Level.medium,
    backend_complexity := Level.medium, domain_complexity := Level.low,
    compliance_level := Level.low, design_source := Design.none,
    frontend_backend_separation := false, need_fast_validation := true,
    iteration_speed := Speed.normal }

/-- Witness for claim C8 at a concrete requirement: only the placeholder
goal is flagged, and it offends the spec-side predicate. -/
theorem claim_C8_witness :
    find_requirement_quality_issues placeholderGoalReq
        = ["项目目标 仍是占位/示例文本：todo"]
      ∧ offendsFromSpec "project_goal" "todo" := by
  constructor
  · rw [(claim_C8 placeholderGoalReq).1]
    decide
  · exact ((claim_C8 placeholderGoalReq).2.2.2 "project_goal" "项目目标" "todo").mp
      (by decide)

/-- The raw input of claim C1: the spec's first scenario with
frontend_backend_separation=true, backend_complexity="high",
module_count=5, the remaining fields left to their documented defaults. -/
def rawScenario2 : List (String × JValue) :=
  [("team_size", JValue.num 2), ("module_count", JValue.num 5),
   ("need_fast_validation", JValue.bool true), ("design_source", JValue.str "none"),
   ("domain_complexity", JValue.str "low"), ("compliance_level", JValue.str "low"),
   ("frontend_backend_separation", JValue.bool true),
   ("backend_complexity", JValue.str "high")]

/-- Counterexample to claim C1: on this scenario the primary combo is not
c3 and the tier stays S instead of rising above S. -/
theorem claim_C1_counterexample :
    (select_combo (score_combos (load_requirements rawScenario2)) "auto").1 ≠ ComboCode.c3
    ∧ complexity_level (load_requirements rawScenario2) = Tier.S := by
  constructor
  · decide
  · decide

/-- Claim C1 as amended: on the modified scenario c2 and c3 tie at the top
score 9, the ascending-code tie-break makes c2 the primary with c3
surfaced as secondary, and the complexity tier stays S. -/
theorem claim_C1 :
    score_combos (load_requirements rawScenario2) ComboCode.c2 = 9
    ∧ score_combos (load_requirements rawScenario2) ComboCode.c3 = 9
    ∧ (select_combo (score_combos (load_requirements rawScenario2)) "auto").1 = ComboCode.c2
    ∧ (select_combo (score_combos (load_requirements rawScenario2)) "auto").2
        = some ComboCode.c3
    ∧ complexity_level (load_requirements rawScenario2) = Tier.S := by
  refine ⟨by decide, by decide, by decide, by decide, by decide⟩
